import Mathlib

/-!
Verification of the TLS Pool SSL adapter (cheroot/ssl/tlspooladapter.py).

The adapter hands each accepted plaintext connection to the external TLS Pool
daemon, which performs the TLS handshake out of process and returns a plaintext
socket plus negotiated identities.  The embedding below translates the adapter
class directly; the daemon itself (the external tlspool library) and the pieces
of cheroot outside the source file (the Adapter base class, StreamReader and
StreamWriter from cheroot/makefile.py) are modelled from the spec, as noted on
each such definition.
-/

set_option autoImplicit false

/-- Role of one endpoint of a handshake: the spec's RoleFlags draw LocalRole
and RemoteRole from the set Server / Client. -/
inductive Role where
  | server
  | client
deriving DecidableEq, Repr

/-- Policy bits of one handshake request, as a tagged struct.  The source ORs
the three bitmask constants PIOF_STARTTLS_LOCALROLE_SERVER,
PIOF_STARTTLS_REMOTEROLE_CLIENT and PIOF_STARTTLS_IGNORE_REMOTEID of the
tlspool library. -/
structure RoleFlags where
  localRole : Role
  remoteRole : Role
  ignoreRemoteIdentity : Bool
deriving DecidableEq, Repr

/-- One handshake request as the source assembles it: the raw accepted socket
and service name passed to tlspool.Connection, the flags value fl, and the
advisory local identity written into hdl.tlsdata.localid before starttls().
Sockets are opaque descriptors, modelled as naturals. -/
structure HandshakeRequest where
  extsock : Nat
  service : String
  flags : RoleFlags
  localid : String
deriving DecidableEq, Repr

/-- Outcome of a completed handshake: the plaintext socket that starttls()
returns, and the tlsdata.localid / tlsdata.remoteid fields as read back after
the handshake (the daemon may have replaced the advisory local identity; the
remote identity is the empty string when the peer supplied none). -/
structure HandshakeResult where
  intsock : Nat
  localid : String
  remoteid : String
deriving DecidableEq, Repr

/-- Failure kinds of the authority, per the spec's error taxonomy. -/
inductive HandshakeError where
  | authorityUnreachable
  | handshakeRejected
  | handshakeTimeout
  | protocolViolation
deriving DecidableEq, Repr

/-- Modelled from the spec: the external TLS Pool daemon (the tlspool library
and the daemon behind it are not part of this repository).  An authority takes
one handshake request and either completes the handshake, yielding a plaintext
socket and the identities it established, or fails; starttls() surfaces the
failure as an exception. -/
def Authority : Type := HandshakeRequest → Except HandshakeError HandshakeResult

/-- Modelled from the spec: the postcondition of a successful negotiation is
that the reported local identity reflects what the authority actually used,
i.e. an identity it established, hence a non-empty string. -/
def EstablishesLocalIdentity (auth : Authority) : Prop :=
  ∀ req r, auth req = Except.ok r → r.localid ≠ ""

/-- State of a TLSPoolAdapter instance: the only attribute the class ever
stores on self is server_name. -/
structure TLSPoolAdapter where
  server_name : String
deriving DecidableEq, Repr

/-- The second, shadowing def of the double-defined initialiser.  In the class
namespace the second def replaces the first, so the call
self.__init__ (server_name) inside its body resolves to this very function
again, with the variadic mooh empty.  The fuel argument bounds the recursion
depth of the interpreter; none models the RecursionError raised when it is
exhausted. -/
def initShadowing : Nat → String → List String → Option TLSPoolAdapter
  | 0, _, _ => none
  | Nat.succ fuel, server_name, _ => initShadowing fuel server_name []

/-- The first def of the initialiser, which its docstring and the second def
both intend to reach: store the first argument as self.server_name, ignoring
the legacy cert/key/chain/ciphers positions.  In the source class it is
shadowed and unreachable. -/
def initIntended (server_name : String) (_mooh : List String) : TLSPoolAdapter :=
  { server_name := server_name }

/-- Modelled from the spec: Adapter.bind of the base class (cheroot/ssl, not
part of the given source) is a pure pass-through returning the listening
socket unchanged. -/
def adapterBaseBind (sock : Nat) : Nat := sock

/-- Method bind: return super(TLSPoolAdapter, self).bind(sock).  The body
contains no attribute assignment, so explicit state passing returns self
unchanged. -/
def bind (self : TLSPoolAdapter) (sock : Nat) : Nat × TLSPoolAdapter :=
  (adapterBaseBind sock, self)

/-- The flags value fl computed in wrap: LOCALROLE_SERVER, REMOTEROLE_CLIENT
and IGNORE_REMOTEID ORed together. -/
def wrapFlags : RoleFlags :=
  { localRole := Role.server
    remoteRole := Role.client
    ignoreRemoteIdentity := true }

/-- The handshake request wrap submits: tlspool.Connection of the raw socket
with service http and flags fl, tlsdata.localid set to self.server_name. -/
def wrapRequest (self : TLSPoolAdapter) (extsock : Nat) : HandshakeRequest :=
  { extsock := extsock
    service := "http"
    flags := wrapFlags
    localid := self.server_name }

/-- The environment dict literal built in wrap from the post-handshake
tlsdata fields, in insertion order. -/
def wrapEnv (r : HandshakeResult) : List (String × String) :=
  [("wsgi.url_scheme", "https"),
   ("HTTPS", "on"),
   ("LOCAL_USER", r.localid),
   ("REMOTE_USER", r.remoteid)]

/-- Method wrap: submit the fixed-policy request through starttls(); on
completion return the plaintext socket and the environment dict as a pair, on
failure let the exception propagate (no pair is produced).  The body assigns
nothing to self, so explicit state passing returns self unchanged. -/
def wrap (auth : Authority) (self : TLSPoolAdapter) (extsock : Nat) :
    Except HandshakeError ((Nat × List (String × String)) × TLSPoolAdapter) :=
  match auth (wrapRequest self extsock) with
  | Except.error e => Except.error e
  | Except.ok r => Except.ok ((r.intsock, wrapEnv r), self)

/-- Modelled from the spec: StreamReader and StreamWriter of cheroot/makefile
(not part of the given source) are opaque buffered wrappers around a socket,
a mode string and a buffer size. -/
inductive FileObject where
  | streamReader (sock : Nat) (mode : String) (bufsize : Int)
  | streamWriter (sock : Nat) (mode : String) (bufsize : Int)
deriving DecidableEq, Repr

/-- Method makefile: pick StreamReader when the character r occurs in the mode
string (the Python membership test on a one-character needle), StreamWriter
otherwise, and construct it from the socket, mode and buffer size.  No
attribute assignment, so self is returned unchanged. -/
def makefile (self : TLSPoolAdapter) (sock : Nat) (mode : String)
    (bufsize : Int) : FileObject × TLSPoolAdapter :=
  if mode.data.contains 'r' then (FileObject.streamReader sock mode bufsize, self)
  else (FileObject.streamWriter sock mode bufsize, self)

/-- Method get_environ: the constant dict of the two transport keys,
independent of the socket argument and of any connection state.  No attribute
assignment, so self is returned unchanged. -/
def get_environ (self : TLSPoolAdapter) (_sock : Nat) :
    List (String × String) × TLSPoolAdapter :=
  ([("wsgi.url_scheme", "https"), ("HTTPS", "on")], self)

/-- One public method call on the adapter, used to speak about arbitrary call
sequences. -/
inductive Op where
  | bindOp (sock : Nat)
  | wrapOp (auth : Authority) (sock : Nat)
  | makefileOp (sock : Nat) (mode : String) (bufsize : Int)
  | getEnvironOp (sock : Nat)

/-- The adapter state after one method call (wrap may fail; either way the
state it leaves behind is the one the method returned, or the unchanged self
when the exception propagated before any return). -/
def step (self : TLSPoolAdapter) : Op → TLSPoolAdapter
  | Op.bindOp sock => (bind self sock).2
  | Op.wrapOp auth sock =>
      match wrap auth self sock with
      | Except.ok p => p.2
      | Except.error _ => self
  | Op.makefileOp sock mode bufsize => (makefile self sock mode bufsize).2
  | Op.getEnvironOp sock => (get_environ self sock).2

/-- The adapter state after a sequence of method calls. -/
def runOps (self : TLSPoolAdapter) : List Op → TLSPoolAdapter
  | [] => self
  | op :: ops => runOps (step self op) ops

/-- Concrete adapter of the canonical deployment scenario. -/
def canonicalAdapter : TLSPoolAdapter :=
  { server_name := "tlspool.arpa2.lab" }

/-- Concrete authority that grants every handshake, keeps the advisory local
identity, and reports no remote identity (the peer supplied none). -/
def grantAbsentAuthority : Authority :=
  fun req => Except.ok
    { intsock := req.extsock, localid := req.localid, remoteid := "" }

/-- Concrete authority that rejects every handshake. -/
def rejectAuthority : Authority :=
  fun _ => Except.error HandshakeError.handshakeRejected

/-- Concrete authority that grants every handshake but substitutes its own
local identity, different from the advisory one. -/
def overrideAuthority : Authority :=
  fun req => Except.ok
    { intsock := req.extsock, localid := "override.arpa2.lab",
      remoteid := "peer.arpa2.lab" }

/-- Concrete handshake result that grantAbsentAuthority reports on the
canonical request at socket 7. -/
def grantedResult : HandshakeResult :=
  { intsock := 7, localid := "tlspool.arpa2.lab", remoteid := "" }

/-- Concrete handshake result that overrideAuthority reports at socket 7. -/
def overriddenResult : HandshakeResult :=
  { intsock := 7, localid := "override.arpa2.lab", remoteid := "peer.arpa2.lab" }

/-- Helper: the overriding authority satisfies the spec postcondition that a
successful negotiation establishes a non-empty local identity. -/
theorem overrideAuthority_establishes : EstablishesLocalIdentity overrideAuthority := by
  intro req r hr
  unfold overrideAuthority at hr
  injection hr with h1
  rw [← h1]
  show ("override.arpa2.lab" : String) ≠ ""
  decide

/-- Helper: the server name is preserved by every single method call. -/
theorem step_server_name (self : TLSPoolAdapter) (op : Op) :
    (step self op).server_name = self.server_name := by
  cases op with
  | bindOp sock => rfl
  | makefileOp sock mode bufsize =>
      simp only [step, makefile]
      split <;> rfl
  | getEnvironOp sock => rfl
  | wrapOp auth sock =>
      simp only [step]
      cases hr : auth (wrapRequest self sock) with
      | error e => simp [wrap, hr]
      | ok r => simp [wrap, hr]

/-- C1 (counterexample): for the canonical request (service http, LocalRole
Server, RemoteRole Client, IgnoreRemoteIdentity true) against an authority
that grants the handshake with the remote identity absent, the environment
mapping returned by wrap nevertheless contains the remote-identity key
REMOTE_USER, bound to the empty identity; the claim says the mapping has no
remote-identity key at all. -/
theorem C1_counterexample :
    (match wrap grantAbsentAuthority canonicalAdapter 7 with
     | Except.ok p => p.1.2.lookup "REMOTE_USER"
     | Except.error _ => none) = some "" := rfl

/-- C1 (amended): for every successful handshake performed by wrap, the
returned environment mapping contains the remote-identity key REMOTE_USER
unconditionally, bound to the remote identity the authority reported — the
empty identity when IgnoreRemoteIdentity was set and the peer supplied
none. -/
theorem C1_amended_remote_key (auth : Authority) (self : TLSPoolAdapter)
    (sock : Nat) (r : HandshakeResult)
    (h : auth (wrapRequest self sock) = Except.ok r) :
    wrap auth self sock = Except.ok ((r.intsock, wrapEnv r), self) ∧
    (wrapEnv r).lookup "REMOTE_USER" = some r.remoteid := by
  constructor
  · unfold wrap
    rw [h]
  · rfl

/-- Witness for C1_amended_remote_key: the granting authority with absent
remote identity, at socket 7. -/
theorem C1_amended_witness :
    wrap grantAbsentAuthority canonicalAdapter 7 =
      Except.ok ((7, wrapEnv grantedResult), canonicalAdapter) ∧
    (wrapEnv grantedResult).lookup "REMOTE_USER" = some "" :=
  C1_amended_remote_key grantAbsentAuthority canonicalAdapter 7
    grantedResult rfl

/-- C2: every handshake request wrap submits carries the single fixed
deployment policy — service name http, LocalRole Server, RemoteRole Client,
IgnoreRemoteIdentity true, advisory local identity equal to the configured
server_name — together with the given socket, for every adapter instance and
socket; and wrap consults the authority on exactly that request. -/
theorem C2_fixed_policy (self : TLSPoolAdapter) (sock : Nat) :
    (wrapRequest self sock).service = "http" ∧
    (wrapRequest self sock).flags.localRole = Role.server ∧
    (wrapRequest self sock).flags.remoteRole = Role.client ∧
    (wrapRequest self sock).flags.ignoreRemoteIdentity = true ∧
    (wrapRequest self sock).localid = self.server_name ∧
    (wrapRequest self sock).extsock = sock ∧
    ∀ auth : Authority, wrap auth self sock =
      (auth (wrapRequest self sock)).map (fun r => ((r.intsock, wrapEnv r), self)) := by
  refine ⟨rfl, rfl, rfl, rfl, rfl, rfl, ?_⟩
  intro auth
  unfold wrap
  cases hr : auth (wrapRequest self sock) <;> rfl

/-- C3: every successful call to wrap returns an environment mapping that
reports secure transport: the transport-scheme key maps to https and the
secure-transport flag to on. -/
theorem C3_secure_env (auth : Authority) (self : TLSPoolAdapter)
    (sock s : Nat) (env : List (String × String)) (self2 : TLSPoolAdapter)
    (h : wrap auth self sock = Except.ok ((s, env), self2)) :
    env.lookup "wsgi.url_scheme" = some "https" ∧
    env.lookup "HTTPS" = some "on" := by
  unfold wrap at h
  revert h
  cases hr : auth (wrapRequest self sock) with
  | error e => intro h; exact Except.noConfusion h
  | ok r =>
      intro h
      injection h with h1
      injection h1 with h2 h3
      injection h2 with h4 h5
      subst h5
      exact ⟨rfl, rfl⟩

/-- Witness for C3_secure_env: the granting authority at socket 7. -/
theorem C3_witness :
    (wrapEnv grantedResult).lookup "wsgi.url_scheme" = some "https" ∧
    (wrapEnv grantedResult).lookup "HTTPS" = some "on" :=
  C3_secure_env grantAbsentAuthority canonicalAdapter 7 7
    (wrapEnv grantedResult) canonicalAdapter rfl

/-- C4: get_environ returns the constant mapping of the transport-scheme key
to https and the secure flag to on, for every adapter and socket, so any two
calls — with the same or different arguments — return equal mappings. -/
theorem C4_environ_constant (a b : TLSPoolAdapter) (s t : Nat) :
    (get_environ a s).1 = [("wsgi.url_scheme", "https"), ("HTTPS", "on")] ∧
    (get_environ a s).1 = (get_environ b t).1 :=
  ⟨rfl, rfl⟩

/-- C5: when the authority fails the handshake, wrap propagates exactly that
failure to the caller: the result is the error itself, never a pair of a
plaintext handle and an environment. -/
theorem C5_failure_propagates (auth : Authority) (self : TLSPoolAdapter)
    (sock : Nat) (e : HandshakeError)
    (h : auth (wrapRequest self sock) = Except.error e) :
    wrap auth self sock = Except.error e := by
  unfold wrap
  rw [h]

/-- Witness for C5_failure_propagates: the rejecting authority at socket 7. -/
theorem C5_witness :
    wrap rejectAuthority canonicalAdapter 7 =
      Except.error HandshakeError.handshakeRejected :=
  C5_failure_propagates rejectAuthority canonicalAdapter 7
    HandshakeError.handshakeRejected rfl

/-- C6: against any authority meeting the spec postcondition that a completed
negotiation establishes a non-empty local identity, every successful wrap
returns an environment whose LOCAL_USER key is bound to the local identity
the authority actually used — read back after the handshake, possibly
different from the requested server_name — and that value is non-empty. -/
theorem C6_local_identity (auth : Authority)
    (hauth : EstablishesLocalIdentity auth) (self : TLSPoolAdapter)
    (sock s : Nat) (env : List (String × String)) (self2 : TLSPoolAdapter)
    (h : wrap auth self sock = Except.ok ((s, env), self2)) :
    ∃ r, auth (wrapRequest self sock) = Except.ok r ∧
      env.lookup "LOCAL_USER" = some r.localid ∧ r.localid ≠ "" := by
  unfold wrap at h
  revert h
  cases hr : auth (wrapRequest self sock) with
  | error e => intro h; exact Except.noConfusion h
  | ok r =>
      intro h
      injection h with h1
      injection h1 with h2 h3
      injection h2 with h4 h5
      subst h5
      exact ⟨r, rfl, rfl, hauth _ r hr⟩

/-- Witness for C6_local_identity: the overriding authority, whose negotiated
local identity differs from the advisory server_name, at socket 7. -/
theorem C6_witness :
    ∃ r, overrideAuthority (wrapRequest canonicalAdapter 7) = Except.ok r ∧
      (wrapEnv overriddenResult).lookup "LOCAL_USER" = some r.localid ∧
      r.localid ≠ "" :=
  C6_local_identity overrideAuthority overrideAuthority_establishes
    canonicalAdapter 7 7 (wrapEnv overriddenResult) canonicalAdapter rfl

/-- C7: bind is a pure pass-through: it returns the very socket descriptor it
was given and leaves the adapter state untouched; its definition involves no
authority and attaches no identity metadata. -/
theorem C7_bind_passthrough (self : TLSPoolAdapter) (sock : Nat) :
    bind self sock = (sock, self) :=
  rfl

/-- C8 (code evaluation): the shadowing initialiser never produces an adapter:
the self-call inside the second def of the double-defined initialiser resolves
to that same def, so for every recursion-depth bound and every argument list —
the minimal one-argument call and the extended call with legacy arguments
alike — construction recurses until the fuel is exhausted, aborting with a
RecursionError before server_name is ever set. -/
theorem C8_init_diverges (fuel : Nat) (server_name : String)
    (mooh : List String) : initShadowing fuel server_name mooh = none := by
  induction fuel generalizing mooh with
  | zero => rfl
  | succ n ih => exact ih []

/-- C9: the deployment policy is never mutated: after any sequence of bind,
wrap, makefile and get_environ calls, against arbitrary authorities, the
adapter still carries the server name it was constructed with. -/
theorem C9_policy_immutable (v : String) (ops : List Op) :
    (runOps { server_name := v } ops).server_name = v := by
  suffices h : ∀ self : TLSPoolAdapter,
      (runOps self ops).server_name = self.server_name by
    exact h { server_name := v }
  induction ops with
  | nil => intro self; rfl
  | cons op ops ih =>
      intro self
      calc (runOps self (op :: ops)).server_name
          = (runOps (step self op) ops).server_name := rfl
        _ = (step self op).server_name := ih (step self op)
        _ = self.server_name := step_server_name self op

/-- C10: makefile yields a StreamReader exactly when the character r occurs in
the mode string and a StreamWriter otherwise, constructed from the given
socket, mode and buffer size; in particular mode rw yields a reader and modes
w and the empty mode yield writers. -/
theorem C10_makefile_mode (self : TLSPoolAdapter) (sock : Nat) (mode : String)
    (bufsize : Int) :
    ((makefile self sock mode bufsize).1 =
        FileObject.streamReader sock mode bufsize ↔
      mode.data.contains 'r' = true) ∧
    ((makefile self sock mode bufsize).1 =
        FileObject.streamWriter sock mode bufsize ↔
      mode.data.contains 'r' = false) ∧
    (makefile self sock "rw" bufsize).1 =
      FileObject.streamReader sock "rw" bufsize ∧
    (makefile self sock "w" bufsize).1 =
      FileObject.streamWriter sock "w" bufsize ∧
    (makefile self sock "" bufsize).1 =
      FileObject.streamWriter sock "" bufsize := by
  refine ⟨?_, ?_, ?_, ?_, ?_⟩
  · unfold makefile
    cases hc : mode.data.contains 'r' <;> simp [hc]
  · unfold makefile
    cases hc : mode.data.contains 'r' <;> simp [hc]
  · rfl
  · rfl
  · rfl
